import Mathlib

/-!
Shallow embedding of `dewan_utils/async_io/async_io.py`.

The module defines a single class (named here `AsyncIo`) that extends a
thread pool, owns a logger, and exposes `queue_save_df` to enqueue a
pandas data frame to be serialized to a spreadsheet by the worker
function `_save_df`.  Machine behavior of the Python standard library
(logging, file handlers) and of the spreadsheet serializer is modelled
explicitly below; the class methods are translated line by line.
-/

namespace DewanUtils

/-- Python logging numeric level NOTSET (0). -/
def NOTSET : Nat := 0

/-- Python logging numeric level for informational records (20). -/
def INFO : Nat := 20

/-- Python logging numeric level for error records (40). -/
def ERROR : Nat := 40

/-- A logging handler: the default stream handler, or a file handler
bound to a path (as produced by `logging.FileHandler(logfile)`). -/
inductive Handler
  | defaultStream
  | fileHandler (path : String)
deriving DecidableEq, Repr

/-- A logger: a name plus its list of attached handlers. -/
structure Logger where
  name : String
  handlers : List Handler
deriving DecidableEq, Repr

/-- `logger.addHandler(h)`: appends a handler, keeping existing ones. -/
def Logger.addHandler (l : Logger) (h : Handler) : Logger :=
  { l with handlers := l.handlers ++ [h] }

/-- `logging.getLogger(name)`: a fresh module logger with no handlers. -/
def Logger.getLogger (n : String) : Logger :=
  { name := n, handlers := [] }

/-- The Python module name, the argument of `logging.getLogger(__name__)`. -/
def moduleName : String := "dewan_utils.async_io.async_io"

/-- Distinguishes the classes of raised Python errors that matter here:
`osError` (raised by `logging.FileHandler` when the path cannot be
opened) and `exception` are instances of `Exception`; `baseExit` stands
for a `BaseException` that is not an `Exception` (e.g. `SystemExit`,
`KeyboardInterrupt`). -/
inductive PyExc
  | osError
  | exception
  | baseExit
deriving DecidableEq, Repr

/-- Whether the raised object is an instance of `Exception`, the class
named by the `except Exception:` clause in `_save_df`. -/
def PyExc.isExceptionInstance : PyExc → Bool
  | .osError => true
  | .exception => true
  | .baseExit => false

/-- Environment for the file log handler: which paths the process can
open for appending.  Models the state of the OS seen by `logging.FileHandler`. -/
structure Env where
  openableForAppend : String → Bool

/-- `logging.FileHandler(logfile)`: opens the file eagerly and raises an
OS error when the path cannot be opened. -/
def FileHandler.create (env : Env) (path : String) : Except PyExc Handler :=
  if env.openableForAppend path then Except.ok (Handler.fileHandler path)
  else Except.error PyExc.osError

/-- The process-wide root logger configuration touched by
`logging.basicConfig(level=...)`. -/
structure RootLogger where
  level : Nat
deriving DecidableEq, Repr

/-- `logging.basicConfig(level=lvl)`: sets the root logger level
(handler creation is irrelevant to the claims and omitted). -/
def RootLogger.basicConfig (r : RootLogger) (lvl : Nat) : RootLogger :=
  { r with level := lvl }

/-- A record of level `lvl` is captured when `lvl` is at least the root
level, following `Logger.isEnabledFor`. -/
def RootLogger.captures (r : RootLogger) (lvl : Nat) : Bool :=
  decide (r.level ≤ lvl)

/-- A pandas data frame: named columns and rows of cells. -/
structure DataFrame where
  columns : List String
  rows : List (List String)
deriving DecidableEq, Repr

/-- A single spreadsheet sheet: a grid of cells. -/
structure Sheet where
  cells : List (List String)
deriving DecidableEq, Repr

/-- Prepends the running index (starting at `i`) to each row, as the
spreadsheet writer renders the default integer index column. -/
def indexRows : Nat → List (List String) → List (List String)
  | _, [] => []
  | i, r :: rs => (toString i :: r) :: indexRows (i + 1) rs

/-- Modelled from the spec: the default spreadsheet layout produced by
`DataFrame.to_excel` — one sheet whose first row is the header (empty
index label then the column names) followed by the data rows, each
prefixed with its default index value. -/
def DataFrame.toSheet (df : DataFrame) : Sheet :=
  { cells := ("" :: df.columns) :: indexRows 0 df.rows }

/-- Modelled from the spec: reading the spreadsheet back, taking the
first row as the header and the first column as the index. -/
def Sheet.readBack (s : Sheet) : Option DataFrame :=
  match s.cells with
  | [] => none
  | header :: dataRows => some { columns := header.tail, rows := dataRows.map List.tail }

/-- The filesystem: the set of existing directories and a map from file
paths to sheet contents. -/
structure FileSystem where
  dirs : List String
  files : List (String × Sheet)
deriving DecidableEq, Repr

/-- The characters strictly before the final slash of a path. -/
def parentDirChars : List Char → List Char
  | [] => []
  | c :: cs => if ('/' : Char) ∈ cs then c :: parentDirChars cs else []

/-- The directory part of a path (empty for a bare file name). -/
def parentDir (path : String) : String :=
  String.mk (parentDirChars path.data)

/-- Writes (or overwrites) the file at `p`. -/
def FileSystem.setFile (fs : FileSystem) (p : String) (s : Sheet) : FileSystem :=
  { fs with files := (p, s) :: fs.files.filter (fun e => e.1 != p) }

/-- Looks up the file at `p`. -/
def FileSystem.getFile (fs : FileSystem) (p : String) : Option Sheet :=
  (fs.files.find? (fun e => e.1 == p)).map Prod.snd

/-- Modelled from the spec: `df.to_excel(file_path)` writes the sheet at
the path when the parent directory exists, and raises an `Exception`
otherwise (missing directory, unwritable path). -/
def to_excel (fs : FileSystem) (df : DataFrame) (filePath : String) :
    Except PyExc FileSystem :=
  if fs.dirs.contains (parentDir filePath) then
    Except.ok (fs.setFile filePath df.toSheet)
  else
    Except.error PyExc.exception

/-- A log record: numeric level, message template, and the path argument
interpolated for `%s`. -/
structure LogRecord where
  level : Nat
  template : String
  arg : String
deriving DecidableEq, Repr

/-- The observable outcome of one run of the worker `_save_df`: the
resulting filesystem, the log records emitted, and the error that
escaped the function uncaught, if any. -/
structure SaveResult where
  fs : FileSystem
  logs : List LogRecord
  escaped : Option PyExc
deriving DecidableEq, Repr

/-- The `try/except Exception/else` body of `_save_df`, parametric in
the outcome of the `to_excel` call: on success the `else` branch logs
`"Saved %s"` at info level; on a raised `Exception` instance the
`except` branch logs `"Unable to save %s"` at error level and swallows
the error; any other raised object propagates out with no log call. -/
def save_df_run (fs : FileSystem) (filePath : String)
    (outcome : Except PyExc FileSystem) : SaveResult :=
  match outcome with
  | Except.ok newFs =>
      { fs := newFs, logs := [⟨INFO, "Saved %s", filePath⟩], escaped := none }
  | Except.error e =>
      if e.isExceptionInstance then
        { fs := fs, logs := [⟨ERROR, "Unable to save %s", filePath⟩], escaped := none }
      else
        { fs := fs, logs := [], escaped := some e }

/-- `AsyncIO._save_df(df_to_save, file_path)`: runs the serialization on
the concrete filesystem model and handles its outcome. -/
def _save_df (fs : FileSystem) (df_to_save : DataFrame) (file_path : String) :
    SaveResult :=
  save_df_run fs file_path (to_excel fs df_to_save file_path)

/-- One task submitted to the pool: the pair of data frame and path. -/
structure SaveTask where
  df : DataFrame
  filePath : String
deriving DecidableEq, Repr

/-- The `concurrent.futures.ThreadPoolExecutor` base object: the
positional and keyword arguments its constructor received, plus the
queue of submitted tasks. -/
structure ThreadPoolExecutor where
  initArgs : List String
  initKwargs : List (String × String)
  tasks : List SaveTask
deriving DecidableEq, Repr

/-- A `concurrent.futures.Future` handle, identified by the index of the
task it tracks. -/
structure Future where
  taskIndex : Nat
deriving DecidableEq, Repr

/-- `executor.submit(fn, ...)`: appends the task to the queue and
returns a `Future` handle for it. -/
def ThreadPoolExecutor.submit (p : ThreadPoolExecutor) (t : SaveTask) :
    ThreadPoolExecutor × Future :=
  ({ p with tasks := p.tasks ++ [t] }, ⟨p.tasks.length⟩)

/-- The value stored in `self.logger`: either the typing expression
`Union[None, logging.Logger]` assigned on the first line after
`super().__init__()` (a type hint object, not a logger), or an actual
logger assigned by `setup_logger`. -/
inductive LoggerField
  | typeHintExpr
  | actual (l : Logger)
deriving DecidableEq, Repr

/-- The state of an `AsyncIO` instance: its thread pool base object and
its `logger` attribute.  The Python class inherits from
`ThreadPoolExecutor`; the inherited state is held in `pool`. -/
structure AsyncIo where
  pool : ThreadPoolExecutor
  loggerField : LoggerField
deriving DecidableEq, Repr

/-- The part of `AsyncIO.__init__` before `setup_logger` is called:
`super().__init__()` is invoked WITHOUT forwarding `args`/`kwargs`
(exactly as in the source), and `self.logger` is assigned the typing
expression `Union[None, logging.Logger]`. -/
def AsyncIo.initPartial (_args : List String) (_kwargs : List (String × String)) :
    AsyncIo :=
  { pool := { initArgs := [], initKwargs := [], tasks := [] },
    loggerField := LoggerField.typeHintExpr }

/-- The Python truthiness test `if logfile:` — false for `None` and for
an empty path string. -/
def logfileTruthy : Option String → Bool
  | none => false
  | some p => p != ""

/-- The `if logger is None: logger = logging.getLogger(__name__)` step. -/
def baseLogger : Option Logger → Logger
  | none => Logger.getLogger moduleName
  | some l => l

/-- `AsyncIO.setup_logger(logger, logfile)`: picks the default logger
when none is supplied, attaches a file handler when a logfile is given
(propagating the OS error when the path cannot be opened), calls
`logging.basicConfig(level=logging.NOTSET)`, and finally stores the
logger into the `logger` attribute. -/
def AsyncIo.setup_logger (st : AsyncIo) (root : RootLogger)
    (logger? : Option Logger) (logfile : Option String) (env : Env) :
    Except PyExc (AsyncIo × RootLogger) := do
  let l := baseLogger logger?
  let l ←
    if logfileTruthy logfile then do
      let h ← FileHandler.create env (logfile.getD "")
      pure (l.addHandler h)
    else
      pure l
  let root := root.basicConfig NOTSET
  pure ({ st with loggerField := LoggerField.actual l }, root)

/-- `AsyncIO.__init__(logger, logfile, *args, **kwargs)`: runs
`super().__init__()` (without the extra arguments), assigns the type
hint to `self.logger`, then runs `setup_logger`. -/
def AsyncIo.init (logger? : Option Logger) (logfile : Option String)
    (args : List String) (kwargs : List (String × String))
    (env : Env) (root : RootLogger) : Except PyExc (AsyncIo × RootLogger) :=
  AsyncIo.setup_logger (AsyncIo.initPartial args kwargs) root logger? logfile env

/-- `AsyncIO.queue_save_df(df_to_save, file_path)`: submits `_save_df`
to the pool and returns `None`; the `Future` returned by `submit` is
discarded. -/
def AsyncIo.queue_save_df (st : AsyncIo) (df_to_save : DataFrame)
    (file_path : String) : AsyncIo × Unit :=
  let sub := st.pool.submit { df := df_to_save, filePath := file_path }
  ({ st with pool := sub.1 }, ())

/-- Whether construction succeeded. -/
def initOk (r : Except PyExc (AsyncIo × RootLogger)) : Bool :=
  match r with
  | Except.ok _ => true
  | Except.error _ => false

/-- A small concrete filesystem used to instantiate theorems: the
current directory and a `data` directory exist, no files yet. -/
def fs0 : FileSystem := { dirs := ["", "data"], files := [] }

/-- A concrete environment in which every path can be opened. -/
def env0 : Env := { openableForAppend := fun _ => true }

/-- A concrete environment in which no path can be opened. -/
def envClosed : Env := { openableForAppend := fun _ => false }

/-- The default root logger configuration (level WARNING = 30). -/
def root0 : RootLogger := { level := 30 }

/-- A concrete two-column data frame used to instantiate theorems. -/
def df0 : DataFrame :=
  { columns := ["odor", "latency"], rows := [["hexanal", "3"], ["pinene", "5"]] }

/-- Dropping the rendered index column recovers the original rows. -/
theorem indexRows_map_tail (i : Nat) (rs : List (List String)) :
    (indexRows i rs).map List.tail = rs := by
  induction rs generalizing i with
  | nil => rfl
  | cons r rs ih => simp [indexRows, ih]

/-- Characterization of a successful construction: the pool keeps none
of the extra constructor arguments, the logger field holds the base
logger with the file handler appended exactly when the logfile argument
is truthy, and the root level has been set to NOTSET. -/
theorem init_ok_elim (logger? : Option Logger) (logfile : Option String)
    (args : List String) (kwargs : List (String × String)) (env : Env)
    (root : RootLogger) (inst : AsyncIo) (root' : RootLogger)
    (h : AsyncIo.init logger? logfile args kwargs env root = Except.ok (inst, root')) :
    inst = { pool := { initArgs := [], initKwargs := [], tasks := [] },
             loggerField := LoggerField.actual
               (if logfileTruthy logfile then
                 (baseLogger logger?).addHandler (Handler.fileHandler (logfile.getD ""))
                else baseLogger logger?) } ∧
    root' = { level := NOTSET } := by
  cases ht : logfileTruthy logfile <;>
    cases hopen : env.openableForAppend (logfile.getD "") <;>
      simp [AsyncIo.init, AsyncIo.setup_logger, AsyncIo.initPartial, ht, hopen,
        FileHandler.create, RootLogger.basicConfig, NOTSET, pure, Except.pure,
        Bind.bind, Except.bind] at h <;>
      exact ⟨h.1.symm, h.2.symm⟩

/-- C1 counterexample: the claim as stated fails on the code.  When the
serialization call raises a BaseException that is not an instance of
Exception, the worker body of `_save_df` emits ZERO log messages (neither
template) and the failure escapes the worker — refuting, at this concrete
input, that every raising run emits exactly one error-level entry and
never re-raises. -/
theorem C1_base_exception_zero_logs :
    (save_df_run fs0 "data/out.xlsx" (Except.error PyExc.baseExit)).logs = [] ∧
    (save_df_run fs0 "data/out.xlsx" (Except.error PyExc.baseExit)).escaped
      = some PyExc.baseExit := ⟨rfl, rfl⟩

/-- C1 (amended): for every run of the worker body of `_save_df` whose
serialization outcome either succeeds or raises an instance of
Exception, exactly one log message is emitted — the info-level record
with template Saved %s naming the destination path on success, or the
error-level record with template Unable to save %s naming the
destination path on a raised Exception — never both, never zero, and the
caught failure is never re-raised out of the worker. -/
theorem C1_exactly_one_log (fs : FileSystem) (p : String)
    (o : Except PyExc FileSystem)
    (h : ∀ e, o = Except.error e → e.isExceptionInstance = true) :
    (save_df_run fs p o).logs.length = 1 ∧
    (save_df_run fs p o).escaped = none ∧
    (∀ newFs, o = Except.ok newFs →
      (save_df_run fs p o).logs = [⟨INFO, "Saved %s", p⟩]) ∧
    (∀ e, o = Except.error e →
      (save_df_run fs p o).logs = [⟨ERROR, "Unable to save %s", p⟩]) := by
  cases o with
  | ok newFs => refine ⟨rfl, rfl, ?_, ?_⟩ <;> intro x hx <;> simp_all [save_df_run]
  | error e =>
      have he := h e rfl
      refine ⟨?_, ?_, ?_, ?_⟩ <;> simp [save_df_run, he]

/-- Witness for C1 at a concrete raising input: the single error record. -/
theorem C1_exactly_one_log_witness :
    (save_df_run fs0 "data/out.xlsx" (Except.error PyExc.exception)).logs
      = [⟨ERROR, "Unable to save %s", "data/out.xlsx"⟩] ∧
    (save_df_run fs0 "data/out.xlsx" (Except.error PyExc.exception)).escaped = none :=
  ⟨(C1_exactly_one_log fs0 "data/out.xlsx" (Except.error PyExc.exception)
      (fun e he => by cases he; rfl)).2.2.2 PyExc.exception rfl,
   (C1_exactly_one_log fs0 "data/out.xlsx" (Except.error PyExc.exception)
      (fun e he => by cases he; rfl)).2.1⟩

/-- C2: for every dataset and every destination path whose parent
directory exists (a writable destination), `_save_df` stores at that
path a file holding the single sheet rendered from the dataset with the
default index column, the read-back of that sheet yields exactly the
original columns and rows (so the row/column shape is preserved), and
the success record is logged. -/
theorem C2_round_trip_shape (fs : FileSystem) (df : DataFrame) (p : String)
    (h : fs.dirs.contains (parentDir p) = true) :
    (_save_df fs df p).fs.getFile p = some df.toSheet ∧
    df.toSheet.readBack = some { columns := df.columns, rows := df.rows } ∧
    (_save_df fs df p).logs = [⟨INFO, "Saved %s", p⟩] := by
  have h' : parentDir p ∈ fs.dirs := by simpa using h
  refine ⟨?_, ?_, ?_⟩
  · simp [_save_df, to_excel, h', save_df_run, FileSystem.getFile, FileSystem.setFile,
      List.find?]
  · simp [DataFrame.toSheet, Sheet.readBack, indexRows_map_tail]
  · simp [_save_df, to_excel, h', save_df_run]

/-- Witness for C2 on a concrete filesystem, data frame and path. -/
theorem C2_round_trip_shape_witness :
    (_save_df fs0 df0 "data/out.xlsx").fs.getFile "data/out.xlsx" = some df0.toSheet ∧
    df0.toSheet.readBack = some { columns := df0.columns, rows := df0.rows } ∧
    (_save_df fs0 df0 "data/out.xlsx").logs = [⟨INFO, "Saved %s", "data/out.xlsx"⟩] :=
  C2_round_trip_shape fs0 df0 "data/out.xlsx" (by decide)

/-- C3: `queue_save_df` submits the save task to the pool (the task is
appended to the task queue) and returns the unit value for every input;
the Future handle produced by submit is discarded inside the method and
is not part of the return value, so the caller can never observe the
write outcome through it.  The rest of the instance state is unchanged. -/
theorem C3_queue_save_returns_none (st : AsyncIo) (df : DataFrame) (p : String) :
    (st.queue_save_df df p).2 = () ∧
    (st.queue_save_df df p).1.pool.tasks
      = st.pool.tasks ++ [{ df := df, filePath := p }] ∧
    (st.queue_save_df df p).1.loggerField = st.loggerField ∧
    (st.queue_save_df df p).1.pool.initArgs = st.pool.initArgs ∧
    (st.queue_save_df df p).1.pool.initKwargs = st.pool.initKwargs :=
  ⟨rfl, rfl, rfl, rfl, rfl⟩

/-- C4: for every destination path whose parent directory does not
exist, the worker run leaves the filesystem exactly unchanged (so no
file is created at the path), emits exactly one error-level record with
template Unable to save %s naming that path, and lets nothing escape. -/
theorem C4_missing_parent_dir (fs : FileSystem) (df : DataFrame) (p : String)
    (h : fs.dirs.contains (parentDir p) = false) :
    (_save_df fs df p).fs = fs ∧
    (_save_df fs df p).logs = [⟨ERROR, "Unable to save %s", p⟩] ∧
    (_save_df fs df p).escaped = none := by
  have h' : parentDir p ∉ fs.dirs := by simpa using h
  refine ⟨?_, ?_, ?_⟩ <;>
    simp [_save_df, to_excel, h', save_df_run, PyExc.isExceptionInstance]

/-- Witness for C4 on a concrete path whose parent directory is absent. -/
theorem C4_missing_parent_dir_witness :
    (_save_df fs0 df0 "missing/out.xlsx").fs = fs0 ∧
    (_save_df fs0 df0 "missing/out.xlsx").logs
      = [⟨ERROR, "Unable to save %s", "missing/out.xlsx"⟩] ∧
    (_save_df fs0 df0 "missing/out.xlsx").escaped = none :=
  C4_missing_parent_dir fs0 df0 "missing/out.xlsx" (by decide)

/-- C5: construction never fails when the logfile argument is omitted;
when a (non-empty) logfile path is given, construction succeeds if and
only if the path can be opened for the file log handler. -/
theorem C5_construct_fails_iff (logger? : Option Logger) (args : List String)
    (kwargs : List (String × String)) (env : Env) (root : RootLogger) :
    initOk (AsyncIo.init logger? none args kwargs env root) = true ∧
    (∀ p : String, p ≠ "" →
      (initOk (AsyncIo.init logger? (some p) args kwargs env root) = true ↔
        env.openableForAppend p = true)) := by
  constructor
  · rfl
  · intro p hp
    have hpb : (p != "") = true := by simpa using hp
    cases hopen : env.openableForAppend p <;>
      simp [AsyncIo.init, AsyncIo.setup_logger, logfileTruthy, hpb, hopen,
        FileHandler.create, RootLogger.basicConfig, initOk, pure, Except.pure,
        Bind.bind, Except.bind]

/-- Witness for C5: with every path openable, construction succeeds both
without and with a logfile. -/
theorem C5_construct_fails_iff_witness :
    initOk (AsyncIo.init none none [] [] env0 root0) = true ∧
    (initOk (AsyncIo.init none (some "run.log") [] [] env0 root0) = true ↔
      env0.openableForAppend "run.log" = true) :=
  ⟨(C5_construct_fails_iff none [] [] env0 root0).1,
   (C5_construct_fails_iff none [] [] env0 root0).2 "run.log" (by decide)⟩

/-- C6: whenever construction succeeds, the logger attribute holds the
base logger (the supplied one, or the freshly created default when none
was supplied) with the file handler for the logfile path appended when a
logfile was given; in particular every handler the logger already had is
preserved, the new handler being appended after them. -/
theorem C6_logger_setup (logger? : Option Logger) (logfile : Option String)
    (args : List String) (kwargs : List (String × String)) (env : Env)
    (root : RootLogger) (inst : AsyncIo) (root' : RootLogger)
    (h : AsyncIo.init logger? logfile args kwargs env root = Except.ok (inst, root')) :
    inst.loggerField = LoggerField.actual
      (if logfileTruthy logfile then
        (baseLogger logger?).addHandler (Handler.fileHandler (logfile.getD ""))
      else baseLogger logger?) ∧
    (∀ l, inst.loggerField = LoggerField.actual l →
      ∃ extra, l.handlers = (baseLogger logger?).handlers ++ extra) := by
  obtain ⟨h1, -⟩ := init_ok_elim logger? logfile args kwargs env root inst root' h
  subst h1
  refine ⟨rfl, ?_⟩
  intro l hl
  cases ht : logfileTruthy logfile <;> simp [ht] at hl <;> subst hl
  · exact ⟨[], by simp⟩
  · exact ⟨[Handler.fileHandler (logfile.getD "")], by simp [Logger.addHandler]⟩

/-- Witness for C6: a supplied logger with one existing handler keeps it
and gains the file handler. -/
theorem C6_logger_setup_witness :
    ({ pool := { initArgs := [], initKwargs := [], tasks := [] },
       loggerField := LoggerField.actual
         { name := "custom",
           handlers := [Handler.defaultStream, Handler.fileHandler "run.log"] } } :
        AsyncIo).loggerField
      = LoggerField.actual
        (if logfileTruthy (some "run.log") then
          (baseLogger (some { name := "custom", handlers := [Handler.defaultStream] })).addHandler
            (Handler.fileHandler ((some "run.log").getD ""))
        else baseLogger (some { name := "custom", handlers := [Handler.defaultStream] })) :=
  (C6_logger_setup (some { name := "custom", handlers := [Handler.defaultStream] })
    (some "run.log") [] [] env0 root0 _ _ rfl).1

/-- C7: the source BUG — `super().__init__()` is called without
forwarding `*args`/`**kwargs`, so whatever extra positional or keyword
constructor arguments are supplied, the underlying pool is constructed
with no arguments at all; the extra arguments do not determine the pool
configuration, contradicting the documented intent. -/
theorem C7_pool_args_not_forwarded (logger? : Option Logger) (logfile : Option String)
    (args : List String) (kwargs : List (String × String)) (env : Env)
    (root : RootLogger) (inst : AsyncIo) (root' : RootLogger)
    (h : AsyncIo.init logger? logfile args kwargs env root = Except.ok (inst, root')) :
    inst.pool.initArgs = [] ∧ inst.pool.initKwargs = [] := by
  obtain ⟨h1, -⟩ := init_ok_elim logger? logfile args kwargs env root inst root' h
  subst h1
  exact ⟨rfl, rfl⟩

/-- Witness for C7: constructing with an extra positional argument and a
max_workers keyword still yields a pool constructed with no arguments. -/
theorem C7_pool_args_not_forwarded_witness :
    ({ pool := { initArgs := [], initKwargs := [], tasks := [] },
       loggerField := LoggerField.actual { name := moduleName, handlers := [] } } :
        AsyncIo).pool.initArgs = [] ∧
    ({ pool := { initArgs := [], initKwargs := [], tasks := [] },
       loggerField := LoggerField.actual { name := moduleName, handlers := [] } } :
        AsyncIo).pool.initKwargs = [] :=
  C7_pool_args_not_forwarded none none ["extra"] [("max_workers", "2")] env0 root0
    _ _ rfl

/-- C8: whenever construction succeeds, the root logging level has been
set to NOTSET, under which records of every numeric level are captured. -/
theorem C8_captures_all_levels (logger? : Option Logger) (logfile : Option String)
    (args : List String) (kwargs : List (String × String)) (env : Env)
    (root : RootLogger) (inst : AsyncIo) (root' : RootLogger)
    (h : AsyncIo.init logger? logfile args kwargs env root = Except.ok (inst, root')) :
    root'.level = NOTSET ∧ ∀ lvl : Nat, root'.captures lvl = true := by
  obtain ⟨-, h2⟩ := init_ok_elim logger? logfile args kwargs env root inst root' h
  subst h2
  exact ⟨rfl, fun lvl => by simp [RootLogger.captures, NOTSET]⟩

/-- Witness for C8 at a concrete construction, checking a sample level. -/
theorem C8_captures_all_levels_witness :
    ({ level := NOTSET } : RootLogger).level = NOTSET ∧
    ({ level := NOTSET } : RootLogger).captures ERROR = true :=
  ⟨(C8_captures_all_levels none none [] [] env0 root0 _ _ rfl).1,
   (C8_captures_all_levels none none [] [] env0 root0 _ _ rfl).2 ERROR⟩

/-- C9: before `setup_logger` runs, the logger attribute holds the
typing expression Union of None and Logger rather than an actual logger;
`setup_logger` ends with an unconditional assignment, so after any
successful construction the attribute holds an actual logger. -/
theorem C9_logger_field_lifecycle (logger? : Option Logger) (logfile : Option String)
    (args : List String) (kwargs : List (String × String)) (env : Env)
    (root : RootLogger) (inst : AsyncIo) (root' : RootLogger)
    (h : AsyncIo.init logger? logfile args kwargs env root = Except.ok (inst, root')) :
    (AsyncIo.initPartial args kwargs).loggerField = LoggerField.typeHintExpr ∧
    ∃ l, inst.loggerField = LoggerField.actual l := by
  obtain ⟨h1, -⟩ := init_ok_elim logger? logfile args kwargs env root inst root' h
  subst h1
  exact ⟨rfl, ⟨_, rfl⟩⟩

/-- Witness for C9 at a concrete construction. -/
theorem C9_logger_field_lifecycle_witness :
    (AsyncIo.initPartial [] []).loggerField = LoggerField.typeHintExpr ∧
    ∃ l, ({ pool := { initArgs := [], initKwargs := [], tasks := [] },
            loggerField := LoggerField.actual { name := moduleName, handlers := [] } } :
             AsyncIo).loggerField = LoggerField.actual l :=
  C9_logger_field_lifecycle none none [] [] env0 root0 _ _ rfl

/-- C10: for every filesystem and path, when the serialization raises a
BaseException that is not an instance of Exception (which the clause
except Exception does not match), the worker body of `_save_df` emits no
log record at all — neither template — and the exception escapes the
worker uncaught. -/
theorem C10_base_exception_escapes (fs : FileSystem) (p : String) :
    PyExc.isExceptionInstance PyExc.baseExit = false ∧
    (save_df_run fs p (Except.error PyExc.baseExit)).logs = [] ∧
    (save_df_run fs p (Except.error PyExc.baseExit)).escaped
      = some PyExc.baseExit :=
  ⟨rfl, rfl, rfl⟩

end DewanUtils
